import Mathlib

/-!
Verification development for the Speeduino serial simulator.

Shallow embedding of the two core components:
- `EngineSimulator` (src/src/EngineSimulator.cpp) as pure state transformers
  over a `Sim` record; the injected random provider is modelled as a raw
  stream `R : Nat → Nat` together with a position counter in the state, and
  one call `random(lo, hi)` maps the next raw draw into `[lo, hi)`.
  `millis()` is a parameter `now` of each entry point (the C++ code reads the
  clock several times inside one call; the driver clock does not advance
  within a call, so all reads return `now`).
- `SpeeduinoProtocol` (src/src/SpeeduinoProtocol.cpp) over a `ProtoState`
  holding the transport's pending input bytes and the written output bytes.

Machine integers are modelled as `Nat` / `Int` with explicit wrapping where
the C++ types wrap: every store into a `uint8_t`/`uint16_t`/`uint32_t`
field goes through `wrap8`/`wrap16`/`wrap32` (or their `Int` versions), and
C signed division (truncation toward zero) is `cdiv` = `Int.tdiv`.
-/

/-! ## C integer helpers -/

/-- Store a `Nat` into a `uint8_t`. -/
def wrap8 (n : Nat) : Nat := n % 256

/-- Store a `Nat` into a `uint16_t`. -/
def wrap16 (n : Nat) : Nat := n % 65536

/-- Store a `Nat` into a `uint32_t`. -/
def wrap32 (n : Nat) : Nat := n % 4294967296

/-- Store an `int` expression into a `uint8_t` (two's-complement wrap). -/
def wrap8i (x : Int) : Nat := (x % 256).toNat

/-- Store an `int` expression into a `uint16_t` (two's-complement wrap). -/
def wrap16i (x : Int) : Nat := (x % 65536).toNat

/-- Reinterpret a byte as `int8_t` (static_cast<int8_t> of a `uint8_t`). -/
def toI8 (n : Nat) : Int := ((n : Int) + 128) % 256 - 128

/-- Reinterpret a 16-bit value as `int16_t`. -/
def toI16 (n : Nat) : Int := ((n : Int) + 32768) % 65536 - 32768

/-- Convert an `int` value to `int8_t` (two's-complement wrap). -/
def i8ofInt (x : Int) : Int := (x + 128) % 256 - 128

/-- Convert an `int` value to `int16_t` (two's-complement wrap). -/
def i16ofInt (x : Int) : Int := (x + 32768) % 65536 - 32768

/-- `uint32_t` subtraction `a - b` (as used for elapsed-time computations). -/
def u32sub (a b : Nat) : Nat := (wrap32 a + 4294967296 - wrap32 b) % 4294967296

/-- C signed integer division: truncation toward zero. -/
def cdiv (a b : Int) : Int := a.tdiv b

/-! ## Configuration constants (src Config.h) -/

def RPM_MIN : Nat := 0
def RPM_IDLE_MIN : Nat := 700
def RPM_IDLE_MAX : Nat := 900
def RPM_CRUISE : Nat := 2500
def RPM_HIGH_START : Nat := 5000
def RPM_MAX : Nat := 7000
def RPM_REDLINE : Nat := 6800

def TEMP_AMBIENT : Int := 200
def TEMP_ENGINE_WARM : Int := 800
def TEMP_ENGINE_HOT : Int := 950

def MAP_ATMOSPHERIC : Nat := 100
def MAP_IDLE : Nat := 35
def MAP_WOT : Nat := 95
def BARO_SEALEVEL : Nat := 100

def VOLTAGE_NORMAL : Nat := 140

def AFR_STOICH : Nat := 147
def AFR_RICH : Nat := 130
def AFR_LEAN : Nat := 160
def AFR_WOT : Nat := 125

def TPS_IDLE : Nat := 2
def TPS_CRUISE : Nat := 20
def TPS_HALF : Nat := 50
def TPS_WOT : Nat := 100

def TIMING_IDLE : Nat := 15
def TIMING_MAX : Nat := 35

def PW_MIN : Nat := 10
def PW_MAX : Nat := 255

def UPDATE_INTERVAL_MS : Nat := 50
def STATE_TRANSITION_MS : Nat := 5000

/-! ## Wire Record (src include/EngineStatus.h)

79 one-byte fields; every field is a `uint8_t` so the model keeps each as a
`Nat` and every writer stores a wrapped byte. The 32 CAN bytes are a total
function on `Fin 32` so the serialized record always has exactly 79 bytes,
mirroring the packed-struct `static_assert(sizeof(EngineStatus) == 79)`. -/

structure EngineStatus where
  response : Nat
  secl : Nat
  status1 : Nat
  engine : Nat
  dwell : Nat
  maplo : Nat
  maphi : Nat
  iat : Nat
  clt : Nat
  batcorrection : Nat
  batteryv : Nat
  o2 : Nat
  egocorrection : Nat
  iatcorrection : Nat
  wue : Nat
  rpmlo : Nat
  rpmhi : Nat
  taeamount : Nat
  gammae : Nat
  ve : Nat
  afrtarget : Nat
  pw1lo : Nat
  pw1hi : Nat
  tpsdot : Nat
  advance : Nat
  tps : Nat
  loopslo : Nat
  loopshi : Nat
  freeramlo : Nat
  freeramhi : Nat
  boosttarget : Nat
  boostduty : Nat
  spark : Nat
  rpmdotlo : Nat
  rpmdothi : Nat
  ethanolpct : Nat
  flexcorrection : Nat
  flexigncorrection : Nat
  idleload : Nat
  testoutputs : Nat
  o2_2 : Nat
  baro : Nat
  canin : Fin 32 → Nat
  tpsadc : Nat
  errors : Nat
  unused1 : Nat
  unused2 : Nat
  unused3 : Nat

/-- The all-zero record (`memset(&status, 0, sizeof(EngineStatus))`). -/
def zeroStatus : EngineStatus :=
  { response := 0, secl := 0, status1 := 0, engine := 0, dwell := 0
    maplo := 0, maphi := 0, iat := 0, clt := 0, batcorrection := 0
    batteryv := 0, o2 := 0, egocorrection := 0, iatcorrection := 0, wue := 0
    rpmlo := 0, rpmhi := 0, taeamount := 0, gammae := 0, ve := 0
    afrtarget := 0, pw1lo := 0, pw1hi := 0, tpsdot := 0, advance := 0
    tps := 0, loopslo := 0, loopshi := 0, freeramlo := 0, freeramhi := 0
    boosttarget := 0, boostduty := 0, spark := 0, rpmdotlo := 0, rpmdothi := 0
    ethanolpct := 0, flexcorrection := 0, flexigncorrection := 0, idleload := 0
    testoutputs := 0, o2_2 := 0, baro := 0, canin := fun _ => 0
    tpsadc := 0, errors := 0, unused1 := 0, unused2 := 0, unused3 := 0 }

/-! ### Accessor methods (EngineStatus.h helper methods) -/

/-- `setRPM`: low byte first, then high byte. -/
def setRPM (st : EngineStatus) (rpm : Nat) : EngineStatus :=
  { st with rpmlo := rpm % 256, rpmhi := rpm / 256 % 256 }

/-- `getRPM`: `(rpmhi << 8) | rpmlo`. -/
def getRPM (st : EngineStatus) : Nat := st.rpmhi * 256 + st.rpmlo

/-- `setMAP`. -/
def setMAP (st : EngineStatus) (map : Nat) : EngineStatus :=
  { st with maplo := map % 256, maphi := map / 256 % 256 }

/-- `getMAP`. -/
def getMAP (st : EngineStatus) : Nat := st.maphi * 256 + st.maplo

/-- `setPulseWidth`. -/
def setPulseWidth (st : EngineStatus) (pw : Nat) : EngineStatus :=
  { st with pw1lo := pw % 256, pw1hi := pw / 256 % 256 }

/-- `getPulseWidth`. -/
def getPulseWidth (st : EngineStatus) : Nat := st.pw1hi * 256 + st.pw1lo

/-- `setRPMDot`: the argument is an `int16_t`; `rpmdot >> 8` is an arithmetic
shift, i.e. floor division by 256. -/
def setRPMDot (st : EngineStatus) (rpmdot : Int) : EngineStatus :=
  let v := i16ofInt rpmdot
  { st with rpmdotlo := (v % 256).toNat, rpmdothi := ((v.fdiv 256) % 256).toNat }

/-- `getRPMDot`: reassembles the two bytes and reinterprets as `int16_t`. -/
def getRPMDot (st : EngineStatus) : Int := toI16 (st.rpmdothi * 256 + st.rpmdotlo)

/-- `setCoolantTemp(int8_t celsius)`: `clt = uint8(celsius + 40)`; the
parameter is an `int8_t`, so an `int` argument wraps at the call boundary. -/
def setCoolantTemp (st : EngineStatus) (celsius : Int) : EngineStatus :=
  { st with clt := wrap8i (i8ofInt celsius + 40) }

/-- `getCoolantTemp`: `int8(int8(clt) - 40)`. -/
def getCoolantTemp (st : EngineStatus) : Int := i8ofInt (toI8 st.clt - 40)

/-- `setIntakeTemp(int8_t celsius)`. -/
def setIntakeTemp (st : EngineStatus) (celsius : Int) : EngineStatus :=
  { st with iat := wrap8i (i8ofInt celsius + 40) }

/-- `getIntakeTemp`. -/
def getIntakeTemp (st : EngineStatus) : Int := i8ofInt (toI8 st.iat - 40)

/-- Byte-exact serialization of the packed struct, in declaration order
(this is what `sendResponse((const uint8_t*)&status, sizeof(EngineStatus))`
puts on the wire). -/
def serializeStatus (st : EngineStatus) : List Nat :=
  [st.response, st.secl, st.status1, st.engine, st.dwell,
   st.maplo, st.maphi, st.iat, st.clt, st.batcorrection,
   st.batteryv, st.o2, st.egocorrection, st.iatcorrection, st.wue,
   st.rpmlo, st.rpmhi, st.taeamount, st.gammae, st.ve, st.afrtarget,
   st.pw1lo, st.pw1hi, st.tpsdot, st.advance, st.tps,
   st.loopslo, st.loopshi, st.freeramlo, st.freeramhi,
   st.boosttarget, st.boostduty, st.spark, st.rpmdotlo, st.rpmdothi,
   st.ethanolpct, st.flexcorrection, st.flexigncorrection, st.idleload,
   st.testoutputs, st.o2_2, st.baro]
  ++ (List.ofFn st.canin)
  ++ [st.tpsadc, st.errors, st.unused1, st.unused2, st.unused3]

/-! ## Engine simulator (src src/EngineSimulator.cpp) -/

/-- Operating modes (EngineSimulator.h `enum class EngineMode`). -/
inductive EngineMode where
  | STARTUP
  | WARMUP_IDLE
  | IDLE
  | LIGHT_LOAD
  | ACCELERATION
  | HIGH_RPM
  | DECELERATION
  | WOT
deriving DecidableEq

/-- Raw stream of the injected random provider: draw `p` of the run.
`random(lo, hi)` maps the next raw draw into `[lo, hi)` (the interface
contract of `IRandomProvider::random(min, max)`). -/
def RStream := Nat → Nat

/-- `random(lo, hi)`: a value in `[lo, hi)` (for `lo < hi`), consuming raw
draw `p`. -/
def randIn (R : RStream) (p : Nat) (lo hi : Int) : Int :=
  lo + (R p : Int) % (hi - lo)

/-- `addNoise(value, range)` = `value + random(-range, range + 1)`
(SENSOR_NOISE_ENABLED is 1 on the advanced-simulation targets). -/
def addNoise (R : RStream) (p : Nat) (value range : Int) : Int :=
  value + randIn R p (-range) (range + 1)

/-- Full simulator state: the Wire Record plus every member of
`EngineSimulator`, plus the two function-`static` locals
(`lastTPS` in `simulateThrottle`, `egoTrend` in `simulateCorrections`)
and the random-stream position. -/
structure Sim where
  status : EngineStatus
  currentMode : EngineMode
  lastUpdateTime : Nat
  stateStartTime : Nat
  engineStartTime : Nat
  targetRPM : Nat
  currentRPM : Nat
  rpmAcceleration : Int
  targetThrottle : Nat
  currentThrottle : Nat
  coolantTemp : Int
  intakeTemp : Int
  exhaustTemp : Int
  pulseWidth : Nat
  injectorDutyCycle : Nat
  loopCounter : Nat
  secondCounter : Nat
  lastTPS : Nat
  egoTrend : Int
  rngPos : Nat

/-- State right after the `EngineSimulator` constructor (the static locals
have their program-start values `lastTPS = 0`, `egoTrend = 1`; the Wire
Record is not yet initialized in C++, the model takes it zero). -/
def mkSim : Sim :=
  { status := zeroStatus, currentMode := EngineMode.STARTUP
    lastUpdateTime := 0, stateStartTime := 0, engineStartTime := 0
    targetRPM := 0, currentRPM := 0, rpmAcceleration := 0
    targetThrottle := 0, currentThrottle := 0
    coolantTemp := TEMP_AMBIENT, intakeTemp := TEMP_AMBIENT, exhaustTemp := TEMP_AMBIENT
    pulseWidth := 0, injectorDutyCycle := 0, loopCounter := 0, secondCounter := 0
    lastTPS := 0, egoTrend := 1, rngPos := 0 }

/-- `initialize()`: memset the record to zero, set `response = 'A'` (65),
reset mode/timestamps and the cold-start variables, seed the sensor bytes.
Does not touch `rpmAcceleration`, `pulseWidth`, the static locals, or the
random stream. -/
def initEngine (now : Nat) (s : Sim) : Sim :=
  let st0 := { zeroStatus with response := 65 }
  let st1 := setRPM st0 0
  let st2 := setCoolantTemp st1 (cdiv TEMP_AMBIENT 10)
  let st3 := setIntakeTemp st2 (cdiv TEMP_AMBIENT 10)
  let st4 := setMAP st3 MAP_ATMOSPHERIC
  let st5 := { st4 with batteryv := VOLTAGE_NORMAL / 10, baro := BARO_SEALEVEL
                        tps := TPS_IDLE }
  { s with status := st5, currentMode := EngineMode.STARTUP
           engineStartTime := wrap32 now, lastUpdateTime := wrap32 now
           stateStartTime := wrap32 now
           currentRPM := 0, targetRPM := RPM_IDLE_MIN + 200
           coolantTemp := TEMP_AMBIENT, intakeTemp := TEMP_AMBIENT
           exhaustTemp := TEMP_AMBIENT
           currentThrottle := TPS_IDLE, targetThrottle := TPS_IDLE
           loopCounter := 0, secondCounter := 0 }

/-- `transitionToMode(newMode)`: set the mode, reset the time-in-state
clock, and derive target RPM / target throttle / ramp rate with the
mode-specific jitter draws, in source order (target RPM draw first). -/
def transitionToMode (R : RStream) (now : Nat) (newMode : EngineMode) (s : Sim) : Sim :=
  let p := s.rngPos
  let tv : Nat × Nat × Int × Nat :=
    match newMode with
    | EngineMode.STARTUP => (RPM_IDLE_MIN + 200, TPS_IDLE + 5, 500, p)
    | EngineMode.WARMUP_IDLE => (RPM_IDLE_MIN + 150, TPS_IDLE + 3, 100, p)
    | EngineMode.IDLE =>
        (wrap16i ((RPM_IDLE_MIN : Int) + randIn R p (-50) 50), TPS_IDLE, 50, p + 1)
    | EngineMode.LIGHT_LOAD =>
        (wrap16i ((RPM_CRUISE : Int) + randIn R p (-300) 300),
         wrap8i ((TPS_CRUISE : Int) + randIn R (p + 1) (-5) 10), 200, p + 2)
    | EngineMode.ACCELERATION =>
        (wrap16i ((RPM_HIGH_START : Int) + randIn R p (-500) 500),
         wrap8i ((TPS_HALF : Int) + randIn R (p + 1) 10 40), 1000, p + 2)
    | EngineMode.HIGH_RPM =>
        (wrap16i ((RPM_REDLINE : Int) - randIn R p 100 500),
         wrap8i ((TPS_WOT : Int) - randIn R (p + 1) 0 20), 500, p + 2)
    | EngineMode.DECELERATION =>
        (wrap16i ((RPM_IDLE_MAX : Int) + randIn R p 0 500), TPS_IDLE, -800, p + 1)
    | EngineMode.WOT => (RPM_REDLINE, TPS_WOT, 1500, p)
  { s with currentMode := newMode, stateStartTime := wrap32 now
           targetRPM := tv.1, targetThrottle := tv.2.1
           rpmAcceleration := tv.2.2.1, rngPos := tv.2.2.2 }

/-- `setMode(mode)`: the public forced-transition entry point; the body is
exactly `transitionToMode(mode)`. -/
def setMode (R : RStream) (now : Nat) (mode : EngineMode) (s : Sim) : Sim :=
  transitionToMode R now mode s

/-- `updateStateMachine()`: one transition-table step. A decision draw is
consumed even when the state does not change (Idle / Light-Load /
Acceleration after their dwell time). -/
def updateStateMachine (R : RStream) (now : Nat) (s : Sim) : Sim :=
  let timeInState := u32sub now s.stateStartTime
  match s.currentMode with
  | EngineMode.STARTUP =>
      if timeInState > 1000 ∧ s.currentRPM > RPM_IDLE_MIN / 2 then
        transitionToMode R now EngineMode.WARMUP_IDLE s
      else s
  | EngineMode.WARMUP_IDLE =>
      if s.coolantTemp > 600 then transitionToMode R now EngineMode.IDLE s else s
  | EngineMode.IDLE =>
      if timeInState > STATE_TRANSITION_MS then
        let r := randIn R s.rngPos 0 100
        let s1 := { s with rngPos := s.rngPos + 1 }
        if r < 30 then transitionToMode R now EngineMode.LIGHT_LOAD s1
        else if r < 35 then transitionToMode R now EngineMode.ACCELERATION s1
        else s1
      else s
  | EngineMode.LIGHT_LOAD =>
      if timeInState > STATE_TRANSITION_MS then
        let r := randIn R s.rngPos 0 100
        let s1 := { s with rngPos := s.rngPos + 1 }
        if r < 40 then transitionToMode R now EngineMode.ACCELERATION s1
        else if r < 70 then transitionToMode R now EngineMode.DECELERATION s1
        else transitionToMode R now EngineMode.IDLE s1
      else s
  | EngineMode.ACCELERATION =>
      if s.currentRPM > RPM_HIGH_START then
        transitionToMode R now EngineMode.HIGH_RPM s
      else if timeInState > 3000 then
        let r := randIn R s.rngPos 0 100
        let s1 := { s with rngPos := s.rngPos + 1 }
        if r < 30 then transitionToMode R now EngineMode.LIGHT_LOAD s1 else s1
      else s
  | EngineMode.HIGH_RPM =>
      if timeInState > 2000 then transitionToMode R now EngineMode.DECELERATION s else s
  | EngineMode.DECELERATION =>
      if s.currentRPM < RPM_IDLE_MAX + 200 then
        transitionToMode R now EngineMode.IDLE s
      else s
  | EngineMode.WOT =>
      if timeInState > 3000 ∨ s.currentRPM > RPM_REDLINE then
        transitionToMode R now EngineMode.HIGH_RPM s
      else s

/-! ### Physics helper functions -/

/-- `interpolate(current, target, rate)`: rate-limited linear step, with a
minimum step of 1 toward the target when the scaled step truncates to 0. -/
def interpolate (current target rate : Int) : Int :=
  let delta := target - current
  let mc := cdiv (delta * rate) 100
  let mc2 := if mc = 0 ∧ delta ≠ 0 then (if delta > 0 then 1 else -1) else mc
  current + mc2

/-- Arduino-style `map()` over promoted `int` arithmetic. -/
def mapValue (x inMin inMax outMin outMax : Int) : Int :=
  cdiv ((x - inMin) * (outMax - outMin)) (inMax - inMin) + outMin

/-- `calculateVE(rpm, tps)`: piecewise VE curve, throttle scaling, clamps to
[30, 100]. Intermediate stores are `uint8_t`. -/
def calculateVE (rpm tps : Nat) : Nat :=
  let base0 : Nat :=
    if rpm < 1000 then 45
    else if rpm < 2000 then wrap8i (55 + cdiv ((rpm : Int) - 1000) 50)
    else if rpm < 4000 then wrap8i (75 + cdiv ((rpm : Int) - 2000) 100)
    else if rpm < 5500 then wrap8i (85 + cdiv ((rpm : Int) - 4000) 200)
    else wrap8i (90 - cdiv ((rpm : Int) - 5500) 100)
  let base1 := wrap8 (base0 * (50 + tps / 2) / 100)
  let base2 := if base1 > 100 then 100 else base1
  if base2 < 30 then 30 else base2

/-- `calculateIgnitionAdvance(rpm, load)`: clamps to [5, TIMING_MAX]. -/
def calculateIgnitionAdvance (rpm load : Nat) : Nat :=
  let b1 := if rpm > 1000 then wrap8i ((TIMING_IDLE : Int) + cdiv ((rpm : Int) - 1000) 200)
            else TIMING_IDLE
  let b2 := if load > 80 then wrap8i ((b1 : Int) - cdiv ((load : Int) - 80) 4)
            else if load < 40 then wrap8i ((b1 : Int) + cdiv (40 - (load : Int)) 8)
            else b1
  let b3 := if b2 > TIMING_MAX then TIMING_MAX else b2
  if b3 < 5 then 5 else b3

/-- `calculateRequiredPulseWidth(rpm, map, ve)`: `uint32` product, biased
denominator `rpm + 1`, scale by 10, clamp to [PW_MIN, PW_MAX]. -/
def calculateRequiredPulseWidth (rpm map ve : Nat) : Nat :=
  let pw0 := map * ve * 1000 % 4294967296
  let pw1 := pw0 / (rpm + 1)
  let pw2 := pw1 / 10
  let pw3 := if pw2 < PW_MIN then PW_MIN else pw2
  if pw3 > PW_MAX then PW_MAX else pw3

/-- `getWarmupEnrichment(coolantTemp)`: 140% down to 100% by temperature
band (coolantTemp is in 0.1 degree units). -/
def getWarmupEnrichment (coolantTemp : Int) : Nat :=
  let tempC := cdiv coolantTemp 10
  if tempC < 0 then 140
  else if tempC < 20 then 130
  else if tempC < 40 then 120
  else if tempC < 60 then 110
  else 100

/-! ### Per-tick simulation stages -/

/-- `simulateRPM()`: ramp toward target, snap on overshoot, clamp to
[RPM_MIN, RPM_MAX] (through an `int16_t` cast for the lower bound), then
add the idle jitter draw **after** the clamps. -/
def simulateRPM (R : RStream) (s : Sim) : Sim :=
  let delta := cdiv (s.rpmAcceleration * (UPDATE_INTERVAL_MS : Int)) 1000
  let rpm1 :=
    if s.currentRPM < s.targetRPM then
      let r := wrap16i ((s.currentRPM : Int) + delta)
      if r > s.targetRPM then s.targetRPM else r
    else if s.currentRPM > s.targetRPM then
      let r := wrap16i ((s.currentRPM : Int) + delta)
      if r < s.targetRPM then s.targetRPM else r
    else s.currentRPM
  let rpm2 := if toI16 rpm1 < (RPM_MIN : Int) then RPM_MIN else rpm1
  let rpm3 := if rpm2 > RPM_MAX then RPM_MAX else rpm2
  let idle := s.currentMode = EngineMode.IDLE ∨ s.currentMode = EngineMode.WARMUP_IDLE
  let rpm4 := if idle then wrap16i ((rpm3 : Int) + randIn R s.rngPos (-10) 10) else rpm3
  let p1 := if idle then s.rngPos + 1 else s.rngPos
  { s with currentRPM := rpm4, rngPos := p1
           status := setRPMDot (setRPM s.status rpm4) s.rpmAcceleration }

/-- Mode-dependent coolant target of `simulateThermal()`. -/
def thermalTargetCoolant (m : EngineMode) : Int :=
  if m = EngineMode.WOT ∨ m = EngineMode.HIGH_RPM then TEMP_ENGINE_HOT
  else if m = EngineMode.IDLE ∨ m = EngineMode.WARMUP_IDLE then TEMP_ENGINE_WARM - 50
  else TEMP_ENGINE_WARM

/-- `simulateThermal()`: rate-limited coolant and intake temperature. -/
def simulateThermal (s : Sim) : Sim :=
  let c1 := interpolate s.coolantTemp (thermalTargetCoolant s.currentMode) 5
  let ti0 := TEMP_AMBIENT + cdiv (c1 - TEMP_AMBIENT) 4
  let ti1 := if s.currentRPM > RPM_CRUISE then
               ti0 - cdiv ((s.currentRPM : Int) - (RPM_CRUISE : Int)) 50
             else ti0
  let i1 := interpolate s.intakeTemp ti1 10
  { s with coolantTemp := c1, intakeTemp := i1
           status := setIntakeTemp (setCoolantTemp s.status (cdiv c1 10)) (cdiv i1 10) }

/-- `simulateThrottle()`: interpolation, `int8_t` noise with [0,100] clamps,
ADC scaling, and the `%`-per-second derivative against the static
`lastTPS`. -/
def simulateThrottle (R : RStream) (s : Sim) : Sim :=
  let ct1 := wrap8i (interpolate (s.currentThrottle : Int) (s.targetThrottle : Int) 20)
  let noisy0 := i8ofInt ((ct1 : Int) + addNoise R s.rngPos 0 1)
  let noisy1 : Int := if noisy0 < 0 then 0 else noisy0
  let noisy2 : Int := if noisy1 > 100 then 100 else noisy1
  let tps := noisy2.toNat
  let tpsDelta : Int := (tps : Int) - (s.lastTPS : Int)
  { s with currentThrottle := ct1, lastTPS := tps, rngPos := s.rngPos + 1
           status := { s.status with
                         tps := tps, tpsadc := tps * 255 / 100
                         tpsdot := wrap8i (tpsDelta * ((1000 : Int) / (UPDATE_INTERVAL_MS : Int))) } }

/-- `simulateMAP()`: throttle/RPM-dependent base pressure, noise, clamp at
atmospheric. All intermediate stores are `uint16_t`. -/
def simulateMAP (R : RStream) (s : Sim) : Sim :=
  let base0 : Nat :=
    if s.currentThrottle < 10 then
      wrap16i ((MAP_IDLE : Int) + cdiv ((s.currentRPM : Int) - (RPM_IDLE_MIN : Int)) 20)
    else if s.currentThrottle > 80 then
      wrap16i ((MAP_WOT : Int) - cdiv ((RPM_MAX : Int) - (s.currentRPM : Int)) 100)
    else
      wrap16i (mapValue (s.currentThrottle : Int) 10 80 ((MAP_IDLE : Int) + 10) ((MAP_WOT : Int) - 5))
  let base1 := if s.currentRPM > RPM_HIGH_START then
                 wrap16i ((base0 : Int) + cdiv ((s.currentRPM : Int) - (RPM_HIGH_START : Int)) 100)
               else base0
  let noisy := wrap16i ((base1 : Int) + addNoise R s.rngPos 0 2)
  let noisy2 := if noisy > MAP_ATMOSPHERIC then MAP_ATMOSPHERIC else noisy
  { s with rngPos := s.rngPos + 1, status := setMAP s.status noisy2 }

/-- `simulateFuel()`: VE, required pulse width, warm-up enrichment into the
`pulseWidth` member, EGO and IAT corrections into `correctedPW` which is
clamped to [PW_MIN, PW_MAX] and stored in the record; also acceleration
enrichment and the total `gammae` correction. The `pulseWidth` member keeps
the enriched-but-uncorrected value (at most 255 * 140 / 100). -/
def simulateFuel (s : Sim) : Sim :=
  let ve := calculateVE s.currentRPM s.currentThrottle
  let map := getMAP s.status
  let pw1 := calculateRequiredPulseWidth s.currentRPM map ve * getWarmupEnrichment s.coolantTemp / 100
  let c1 := pw1 * s.status.egocorrection / 100 % 65536
  let c2 := c1 * s.status.iatcorrection / 100 % 65536
  let c3 := if c2 < PW_MIN then PW_MIN else c2
  let c4 := if c3 > PW_MAX then PW_MAX else c3
  let tae := if s.status.tpsdot > 10 then 100 + s.status.tpsdot / 2 else 100
  let gam := wrap8 (s.status.egocorrection * s.status.iatcorrection * getWarmupEnrichment s.coolantTemp / 10000)
  { s with pulseWidth := pw1
           status := setPulseWidth
             { s.status with
                 ve := ve, wue := getWarmupEnrichment s.coolantTemp
                 taeamount := wrap8 tae, gammae := gam } c4 }

/-- `simulateIgnition()`: advance from RPM and MAP-derived load, dwell from
battery voltage, spark flag bit 0. -/
def simulateIgnition (s : Sim) : Sim :=
  let load := wrap8 (getMAP s.status * 100 / MAP_ATMOSPHERIC)
  let adv := calculateIgnitionAdvance s.currentRPM load
  let dwell := if s.status.batteryv < 12 then 45 else 35
  { s with status := { s.status with advance := adv, dwell := dwell, spark := 1 } }

/-- Mode-dependent target AFR of `simulateAFR()`. -/
def targetAFRofMode (m : EngineMode) : Nat :=
  match m with
  | EngineMode.STARTUP => AFR_RICH
  | EngineMode.WARMUP_IDLE => AFR_RICH
  | EngineMode.WOT => AFR_WOT
  | EngineMode.ACCELERATION => AFR_WOT
  | EngineMode.DECELERATION => AFR_LEAN
  | _ => AFR_STOICH

/-- `simulateAFR()`: target AFR, lambda-scaled O2 reading, noise on the
secondary sensor first and then on the primary. -/
def simulateAFR (R : RStream) (s : Sim) : Sim :=
  let targetAFR := targetAFRofMode s.currentMode
  let lambda := targetAFR * 100 / 147
  let o2a := wrap8i (mapValue (lambda : Int) 50 150 0 255)
  let o2b := wrap8i ((o2a : Int) + addNoise R s.rngPos 0 3)
  let o2c := wrap8i ((o2a : Int) + addNoise R (s.rngPos + 1) 0 5)
  { s with rngPos := s.rngPos + 2
           status := { s.status with afrtarget := targetAFR, o2 := o2c, o2_2 := o2b } }

/-- `simulateCorrections()`: closed-loop EGO walk between the 90/110 turn
points (active when coolant is above 50.0 degrees and mode is not WOT,
otherwise pinned to 100), IAT and battery corrections, flex-fuel statics,
idle load, boost zeros. `egoTrend` is the function-static trend. -/
def simulateCorrections (R : RStream) (s : Sim) : Sim :=
  let closed := s.coolantTemp > 500 ∧ s.currentMode ≠ EngineMode.WOT
  let ego1 := if closed then wrap8i ((s.status.egocorrection : Int) + s.egoTrend)
              else 100
  let trend1 :=
    if closed then
      let t1 := if ego1 > 110 then (-1 : Int) else s.egoTrend
      if ego1 < 90 then 1 else t1
    else s.egoTrend
  let iatC := cdiv s.intakeTemp 10
  let iatc := if iatC < 0 then 110 else if iatC < 10 then 105 else 100
  let batc := if s.status.batteryv < 12 then 105 else 100
  let isIdle := s.currentMode = EngineMode.IDLE
  let idl := if isIdle then wrap8i (30 + randIn R s.rngPos (-5) 5) else 0
  let p1 := if isIdle then s.rngPos + 1 else s.rngPos
  { s with egoTrend := trend1, rngPos := p1
           status := { s.status with
                         egocorrection := ego1, iatcorrection := iatc
                         batcorrection := batc, ethanolpct := 0, flexcorrection := 100
                         flexigncorrection := 0, idleload := idl
                         boosttarget := 0, boostduty := 0 } }

/-- `simulateSensors()`: status bit fields (the set bits are disjoint, so
bitwise-or is addition here). -/
def simulateSensors (s : Sim) : Sim :=
  let st1 := (if s.currentRPM > 0 then 1 else 0) + (if s.coolantTemp > 500 then 2 else 0)
  let en := (if s.currentMode = EngineMode.STARTUP then 1 else 0)
            + (if s.currentRPM > 0 then 2 else 0)
  { s with status := { s.status with status1 := st1, engine := en, testoutputs := 0 } }

/-- `simulateVoltage()`: cranking drop, alternator rise, noise. -/
def simulateVoltage (R : RStream) (s : Sim) : Sim :=
  let base : Nat := if s.currentMode = EngineMode.STARTUP then 10
                    else if s.currentRPM > RPM_CRUISE then 14
                    else VOLTAGE_NORMAL / 10
  { s with rngPos := s.rngPos + 1
           status := { s.status with batteryv := wrap8i ((base : Int) + addNoise R s.rngPos 0 1) } }

/-- `simulateCANData()`: big-endian RPM, speed estimate, coolant byte, TPS,
and the deterministic filler pattern. -/
def simulateCANData (s : Sim) : Sim :=
  let speed0 := s.currentRPM / 100
  let speed := if speed0 > 255 then 255 else speed0
  let canin1 : Fin 32 → Nat := fun i =>
    if i.val = 0 then s.currentRPM / 256 % 256
    else if i.val = 1 then s.currentRPM % 256
    else if i.val = 2 then speed % 256
    else if i.val = 3 then 0
    else if i.val = 4 then s.status.clt
    else if i.val = 5 then 0
    else if i.val = 6 then s.status.tps
    else if i.val = 7 then 0
    else (i.val * 7 + s.loopCounter) % 256
  { s with status := { s.status with canin := canin1 } }

/-- The counter prologue of `update()`: record the accepted-tick time,
advance the loop counter, and every 20th tick advance the wrapping second
counter and its `secl` byte. -/
def tickCount (now : Nat) (s : Sim) : Sim :=
  let s1 := { s with lastUpdateTime := wrap32 now, loopCounter := wrap32 (s.loopCounter + 1) }
  if s1.loopCounter % 20 = 0 then
    let sc := wrap16 (s1.secondCounter + 1)
    { s1 with secondCounter := sc, status := { s1.status with secl := sc % 256 } }
  else s1

/-- The epilogue of `update()`: loop-counter bytes, free-RAM bytes
(non-AVR value 8192), and the occasional synthetic error code (the second
draw happens only when the first is below 2). -/
def tickFinish (R : RStream) (s : Sim) : Sim :=
  let loops := s.loopCounter % 65536
  let s15 := { s with status := { s.status with
                                    loopslo := loops % 256
                                    loopshi := loops / 256 % 256
                                    freeramlo := 8192 % 256
                                    freeramhi := 8192 / 256 % 256 } }
  if randIn R s15.rngPos 0 100 < 2 then
    { s15 with rngPos := s15.rngPos + 2
               status := { s15.status with errors := wrap8i (randIn R (s15.rngPos + 1) 1 4) } }
  else
    { s15 with rngPos := s15.rngPos + 1, status := { s15.status with errors := 0 } }

/-- The body of `update()` once the time gate has passed: counters, state
machine, then the fixed stage pipeline in source order. -/
def tickCore (R : RStream) (now : Nat) (s : Sim) : Sim :=
  tickFinish R
    (simulateCANData
      (simulateVoltage R
        (simulateSensors
          (simulateCorrections R
            (simulateAFR R
              (simulateIgnition
                (simulateFuel
                  (simulateMAP R
                    (simulateThrottle R
                      (simulateThermal
                        (simulateRPM R
                          (updateStateMachine R now (tickCount now s)))))))))))))

/-- `update()`: time-gated tick. Returns `false` and the unchanged state
when less than `UPDATE_INTERVAL_MS` has elapsed since the last accepted
tick (uint32 clock subtraction), otherwise runs one full tick. -/
def update (R : RStream) (now : Nat) (s : Sim) : Bool × Sim :=
  if u32sub now s.lastUpdateTime < UPDATE_INTERVAL_MS then (false, s)
  else (true, tickCore R now s)

/-! ## Protocol handler (src src/SpeeduinoProtocol.cpp) -/

/-- Protocol-handler state: the two `uint32_t` statistics counters and the
transport, modelled as the list of pending input bytes plus the bytes
written so far (each write appends; `flush` has no observable effect on the
byte sequence). -/
structure ProtoState where
  commandCount : Nat
  errorCount : Nat
  input : List Nat
  output : List Nat

/-- ASCII bytes of `"speeduino 202310-sim 2.0.0\n"` (the `'V'` response,
FIRMWARE_VERSION = "2.0.0"). -/
def versionBytes : List Nat :=
  [115, 112, 101, 101, 100, 117, 105, 110, 111, 32,
   50, 48, 50, 51, 49, 48, 45, 115, 105, 109, 32,
   50, 46, 48, 46, 48, 10]

/-- The `'S'` response: SPEEDUINO_SIGNATURE = "speeduino 202310"
(16 bytes) zero-padded to 20 bytes. -/
def signatureBytes : List Nat :=
  [115, 112, 101, 101, 100, 117, 105, 110, 111, 32,
   50, 48, 50, 51, 49, 48, 0, 0, 0, 0]

/-- The `'Q'` response: signature byte, status flag, page count, reserved. -/
def statusResponseBytes : List Nat := [0, 1, 1, 0]

/-- Number of pages declared by the `'n'` handler (`response[0] = 2`). -/
def numPages : Nat := 2

/-- Size of configuration page 0 in the `'n'` handler (32 bytes). -/
def pageSize0 : Nat := 32

/-- Size of configuration page 1 in the `'n'` handler (256 bytes). -/
def pageSize1 : Nat := 256

/-- The `'n'` response: page count, then little-endian size pairs for
page 0 and page 1, then the reserved zero pair. -/
def pageSizesBytes : List Nat :=
  [numPages,
   pageSize0 % 256, pageSize0 / 256,
   pageSize1 % 256, pageSize1 / 256,
   0, 0]

/-- Append a response to the transport (`sendResponse` / `sendString`). -/
def sendBytes (p : ProtoState) (bytes : List Nat) : ProtoState :=
  { p with output := p.output ++ bytes }

/-- `processCommands()` against the Wire Record snapshot `st`: returns
`false` when no byte is available; otherwise consumes exactly one byte,
increments the processed-command counter (uint32), dispatches on the byte
(the `char` cast cannot make a byte collide with another command letter),
and returns `true`. Unknown bytes get the single `0xFF` and bump the error
counter. -/
def processCommands (st : EngineStatus) (p : ProtoState) : Bool × ProtoState :=
  match p.input with
  | [] => (false, p)
  | b :: rest =>
    let p1 := { p with input := rest, commandCount := wrap32 (p.commandCount + 1) }
    if b = 65 then (true, sendBytes p1 (serializeStatus st))
    else if b = 81 then (true, sendBytes p1 statusResponseBytes)
    else if b = 86 ∨ b = 118 then (true, sendBytes p1 versionBytes)
    else if b = 83 then (true, sendBytes p1 signatureBytes)
    else if b = 110 then (true, sendBytes p1 pageSizesBytes)
    else (true, { sendBytes p1 [255] with errorCount := wrap32 (p.errorCount + 1) })

/-! ## Auxiliary definitions for concrete runs and the reachability model -/

/-- The all-zero raw random stream: every `random(lo, hi)` call returns
`lo`. -/
def zeroR : RStream := fun _ => 0

/-- Run `n` accepted ticks at times 50, 100, ..., 50 n. -/
def iterTicks (R : RStream) : Nat → Sim → Sim
  | 0, s => s
  | k + 1, s => (update R (50 * (k + 1)) (iterTicks R k s)).2

/-- States of the simulator reachable through the public interface:
`initialize()` on the constructed object, then any interleaving of
`update()` and `setMode()` calls with arbitrary clock readings and random
draws. -/
inductive Reachable : Sim → Prop where
  | init : ∀ t : Nat, Reachable (initEngine t mkSim)
  | step : ∀ {s : Sim} (R : RStream) (now : Nat), Reachable s → Reachable (update R now s).2
  | force : ∀ {s : Sim} (R : RStream) (now : Nat) (m : EngineMode),
      Reachable s → Reachable (setMode R now m s)

/-- The closed-loop EGO band: the correction byte is inside the turn-around
band with a trend-consistent sub-range (the walk adds the trend first and
flips it afterwards, so the byte reaches 111 going up and 89 going down). -/
def EgoBand (s : Sim) : Prop :=
  (s.egoTrend = 1 ∧ 89 ≤ s.status.egocorrection ∧ s.status.egocorrection ≤ 110)
  ∨ (s.egoTrend = -1 ∧ 90 ≤ s.status.egocorrection ∧ s.status.egocorrection ≤ 111)

/-- Inductive invariant tying the EGO correction byte to the trend static:
either the closed-loop walk is inside its turn-around band, or the engine
is fresh (ego still zero from `memset`) and the coolant is too cold for
closed loop to engage on the next tick (one thermal step from at most 460
stays at or below 500). -/
def EgoInv (s : Sim) : Prop :=
  EgoBand s ∨ (s.egoTrend = 1 ∧ s.status.egocorrection = 0 ∧ s.coolantTemp ≤ 460)

/-! ## Basic accessor lemmas -/

theorem getPulseWidth_setPulseWidth (st : EngineStatus) (v : Nat) :
    getPulseWidth (setPulseWidth st v) = v % 65536 := by
  unfold getPulseWidth setPulseWidth
  dsimp only
  omega

theorem getRPM_setRPM (st : EngineStatus) (v : Nat) :
    getRPM (setRPM st v) = v % 65536 := by
  unfold getRPM setRPM
  dsimp only
  omega

theorem getMAP_setMAP (st : EngineStatus) (v : Nat) :
    getMAP (setMAP st v) = v % 65536 := by
  unfold getMAP setMAP
  dsimp only
  omega

theorem serializeStatus_length (st : EngineStatus) : (serializeStatus st).length = 79 := by
  simp [serializeStatus]

/-! ## Claim C1 -/

/-- Claim C1: when `poll` receives the command byte 65 (ASCII `A`), it
reports a processed command and writes exactly the 79-byte serialized Wire
Record, verbatim; its first byte is the `response` field, which is 65
after `initialize()` (final conjunct). -/
theorem cmdA_writes_wire_record (st : EngineStatus) (p : ProtoState) (rest : List Nat)
    (hin : p.input = 65 :: rest) (hresp : st.response = 65) :
    (processCommands st p).1 = true ∧
    (processCommands st p).2.output = p.output ++ serializeStatus st ∧
    (serializeStatus st).length = 79 ∧
    (serializeStatus st).head? = some 65 ∧
    ∀ (t : Nat) (s0 : Sim), (initEngine t s0).status.response = 65 := by
  refine ⟨?_, ?_, serializeStatus_length st, ?_, fun t s0 => rfl⟩ <;>
    simp [processCommands, hin, sendBytes, serializeStatus, hresp]

/-- Witness for C1 at a concrete record and transport state. -/
theorem cmdA_writes_wire_record_w :
    (processCommands { zeroStatus with response := 65 }
        { commandCount := 0, errorCount := 0, input := [65], output := [] }).2.output
      = [] ++ serializeStatus { zeroStatus with response := 65 } :=
  (cmdA_writes_wire_record { zeroStatus with response := 65 }
    { commandCount := 0, errorCount := 0, input := [65], output := [] } [] rfl rfl).2.1

/-! ## Claim C2 -/

/-- Claim C2 counterexample: with the processed-command counter at the
`uint32_t` maximum, a poll that consumes a byte wraps the counter to 0, so
it does not increase by exactly 1. -/
theorem poll_counter_wrap_cex :
    (processCommands zeroStatus
        { commandCount := 4294967295, errorCount := 0, input := [65], output := [] }).2.commandCount = 0
    ∧ (0 : Nat) ≠ 4294967295 + 1 := by
  exact ⟨rfl, by decide⟩

/-- Claim C2 (amended): a poll that finds a byte available increments the
processed-command counter by exactly 1 modulo 2^32 regardless of the byte,
and for a byte outside the recognized set additionally increments the
error counter by exactly 1 modulo 2^32 and writes the single byte 0xFF. -/
theorem poll_counts_mod32 (st : EngineStatus) (p : ProtoState) (b : Nat) (rest : List Nat)
    (hin : p.input = b :: rest) :
    (processCommands st p).2.commandCount = (p.commandCount + 1) % 4294967296 ∧
    (processCommands st p).1 = true ∧
    (b ≠ 65 → b ≠ 81 → b ≠ 86 → b ≠ 118 → b ≠ 83 → b ≠ 110 →
      (processCommands st p).2.errorCount = (p.errorCount + 1) % 4294967296 ∧
      (processCommands st p).2.output = p.output ++ [255]) := by
  unfold processCommands
  rw [hin]
  dsimp only
  refine ⟨?_, ?_, ?_⟩
  · split_ifs <;> rfl
  · split_ifs <;> rfl
  · intro h1 h2 h3 h4 h5 h6
    rw [if_neg h1, if_neg h2, if_neg (show ¬(b = 86 ∨ b = 118) from fun h => h.elim h3 h4),
        if_neg h5, if_neg h6]
    exact ⟨rfl, rfl⟩

/-- Witness for C2 at a concrete unknown command byte (0). -/
theorem poll_counts_mod32_w :
    (processCommands zeroStatus
        { commandCount := 7, errorCount := 3, input := [0], output := [] }).2.errorCount
      = (3 + 1) % 4294967296 :=
  ((poll_counts_mod32 zeroStatus
      { commandCount := 7, errorCount := 3, input := [0], output := [] } 0 [] rfl).2.2
    (by decide) (by decide) (by decide) (by decide) (by decide) (by decide)).1

/-! ## Claim C9 -/

/-- Claim C9: the `'n'` (110) command writes exactly 7 bytes: the declared
page count first, then the little-endian size pair of each configured page
(32 and 256), then the reserved zero pair. -/
theorem cmdN_page_sizes (st : EngineStatus) (p : ProtoState) (rest : List Nat)
    (hin : p.input = 110 :: rest) :
    (processCommands st p).1 = true ∧
    (processCommands st p).2.output = p.output ++ pageSizesBytes ∧
    pageSizesBytes.length = 7 ∧
    pageSizesBytes.head? = some numPages ∧
    pageSizesBytes = [numPages, pageSize0 % 256, pageSize0 / 256, pageSize1 % 256, pageSize1 / 256, 0, 0] := by
  refine ⟨?_, ?_, by decide, by decide, by decide⟩ <;>
    simp [processCommands, hin, sendBytes]

/-- Witness for C9 at a concrete transport state. -/
theorem cmdN_page_sizes_w :
    (processCommands zeroStatus
        { commandCount := 0, errorCount := 0, input := [110], output := [] }).2.output
      = [] ++ pageSizesBytes :=
  (cmdN_page_sizes zeroStatus
    { commandCount := 0, errorCount := 0, input := [110], output := [] } [] rfl).2.1

/-! ## Claim C5 -/

/-- Claim C5 counterexample: the claimed +40-offset domain is −40…215, but
the temperature setters take an `int8_t`; the Celsius value 150 wraps at
the parameter boundary and reads back as −106, so the round-trip fails on
values above 127. -/
theorem coolant_roundtrip_cex :
    getCoolantTemp (setCoolantTemp zeroStatus 150) = -106 ∧ ((-106 : Int) ≠ 150) :=
  ⟨by decide, by decide⟩

/-- Claim C5 (amended): the two-byte set/get pairs round-trip for every
16-bit value (and the signed RPM-rate for every `int16_t` value); the
temperature pairs round-trip for every Celsius value representable in the
setter's `int8_t` parameter, −128…127 — hence on −40…127 of the claimed
offset domain, but not above 127. -/
theorem accessor_roundtrips (st : EngineStatus) :
    (∀ x : Nat, x < 65536 → getRPM (setRPM st x) = x) ∧
    (∀ x : Nat, x < 65536 → getMAP (setMAP st x) = x) ∧
    (∀ x : Nat, x < 65536 → getPulseWidth (setPulseWidth st x) = x) ∧
    (∀ x : Int, -32768 ≤ x → x < 32768 → getRPMDot (setRPMDot st x) = x) ∧
    (∀ c : Int, -128 ≤ c → c < 128 → getCoolantTemp (setCoolantTemp st c) = c) ∧
    (∀ c : Int, -128 ≤ c → c < 128 → getIntakeTemp (setIntakeTemp st c) = c) := by
  refine ⟨?_, ?_, ?_, ?_, ?_, ?_⟩
  · intro x hx; rw [getRPM_setRPM]; omega
  · intro x hx; rw [getMAP_setMAP]; omega
  · intro x hx; rw [getPulseWidth_setPulseWidth]; omega
  · intro x h1 h2
    unfold setRPMDot getRPMDot toI16 i16ofInt
    dsimp only
    rw [Int.fdiv_eq_ediv _ (by norm_num)]
    have e1 : ((x + 32768) % 65536 - 32768) = x := by omega
    rw [e1]
    have n1 : (0 : Int) ≤ x % 256 := Int.emod_nonneg x (by norm_num)
    have n2 : (0 : Int) ≤ x / 256 % 256 := Int.emod_nonneg _ (by norm_num)
    push_cast [Int.toNat_of_nonneg n1, Int.toNat_of_nonneg n2]
    omega
  · intro c h1 h2
    unfold setCoolantTemp getCoolantTemp toI8 i8ofInt wrap8i
    dsimp only
    have n1 : (0 : Int) ≤ ((c + 128) % 256 - 128 + 40) % 256 := Int.emod_nonneg _ (by norm_num)
    push_cast [Int.toNat_of_nonneg n1]
    omega
  · intro c h1 h2
    unfold setIntakeTemp getIntakeTemp toI8 i8ofInt wrap8i
    dsimp only
    have n1 : (0 : Int) ≤ ((c + 128) % 256 - 128 + 40) % 256 := Int.emod_nonneg _ (by norm_num)
    push_cast [Int.toNat_of_nonneg n1]
    omega

/-- Witness for C5 at concrete values. -/
theorem accessor_roundtrips_w :
    getRPM (setRPM zeroStatus 6800) = 6800 :=
  (accessor_roundtrips zeroStatus).1 6800 (by decide)

/-! ## Claim C6 -/

/-- Claim C6: calling `tick()` when less than the 50 ms update interval has
elapsed since the last accepted tick reports no change and returns the
state entirely unchanged. -/
theorem rapid_poll_noop (R : RStream) (now : Nat) (s : Sim)
    (h : u32sub now s.lastUpdateTime < UPDATE_INTERVAL_MS) :
    update R now s = (false, s) := by
  unfold update
  rw [if_pos h]

/-- Witness for C6: a tick 20 ms after initialization is a no-op. -/
theorem rapid_poll_noop_w :
    update zeroR 20 (initEngine 0 mkSim) = (false, initEngine 0 mkSim) :=
  rapid_poll_noop zeroR 20 (initEngine 0 mkSim) (by decide)

/-! ## Claim C8 -/

/-- Claim C8: `setMode(m)` performs exactly the same state update as the
state machine's own transition into `m` — it is literally
`transitionToMode(m)`, with the same target derivations from the same
random draws in the same order, the mode set, and the time-in-state clock
reset; conversely a natural transition (shown for the timed
HighRpm → Deceleration exit) is exactly `setMode`. -/
theorem setMode_is_natural_transition (m : EngineMode) (R : RStream) (now : Nat) (s : Sim) :
    setMode R now m s = transitionToMode R now m s ∧
    (setMode R now m s).currentMode = m ∧
    (setMode R now m s).stateStartTime = wrap32 now ∧
    (s.currentMode = EngineMode.HIGH_RPM → u32sub now s.stateStartTime > 2000 →
      updateStateMachine R now s = setMode R now EngineMode.DECELERATION s) := by
  refine ⟨rfl, rfl, rfl, ?_⟩
  intro h1 h2
  unfold updateStateMachine setMode
  rw [h1]
  dsimp only
  rw [if_pos h2]

/-- Witness for C8: a state dwelling in HighRpm past 2 s transitions
naturally exactly as `setMode(Deceleration)` would. -/
theorem setMode_is_natural_transition_w :
    updateStateMachine zeroR 3000 { mkSim with currentMode := EngineMode.HIGH_RPM }
      = setMode zeroR 3000 EngineMode.DECELERATION { mkSim with currentMode := EngineMode.HIGH_RPM } :=
  (setMode_is_natural_transition EngineMode.DECELERATION zeroR 3000
    { mkSim with currentMode := EngineMode.HIGH_RPM }).2.2.2 rfl (by decide)

/-! ## Frame lemmas: fields each pipeline stage leaves untouched

Each stage writes through a single record literal, so the untouched
projections reduce definitionally; the prologue/epilogue and the state
machine branch, so their lemmas split on the branch. -/

theorem frame_tickCount_ego (now : Nat) (s : Sim) :
    (tickCount now s).status.egocorrection = s.status.egocorrection := by
  unfold tickCount
  dsimp only
  split <;> rfl

theorem frame_tickCount_trend (now : Nat) (s : Sim) :
    (tickCount now s).egoTrend = s.egoTrend := by
  unfold tickCount
  dsimp only
  split <;> rfl

theorem frame_tickCount_cool (now : Nat) (s : Sim) :
    (tickCount now s).coolantTemp = s.coolantTemp := by
  unfold tickCount
  dsimp only
  split <;> rfl

theorem frame_tickCount_rpm (now : Nat) (s : Sim) :
    (tickCount now s).currentRPM = s.currentRPM := by
  unfold tickCount
  dsimp only
  split <;> rfl

theorem frame_tickCount_getPW (now : Nat) (s : Sim) :
    getPulseWidth (tickCount now s).status = getPulseWidth s.status := by
  unfold tickCount
  dsimp only
  split <;> rfl

theorem frame_tickCount_pwm (now : Nat) (s : Sim) :
    (tickCount now s).pulseWidth = s.pulseWidth := by
  unfold tickCount
  dsimp only
  split <;> rfl

theorem frame_tickCount_getRPMb (now : Nat) (s : Sim) :
    getRPM (tickCount now s).status = getRPM s.status := by
  unfold tickCount
  dsimp only
  split <;> rfl

theorem frame_usm_ego (R : RStream) (now : Nat) (s : Sim) :
    (updateStateMachine R now s).status.egocorrection = s.status.egocorrection := by
  unfold updateStateMachine
  cases s.currentMode <;> dsimp only <;> (repeat' split) <;> rfl

theorem frame_usm_trend (R : RStream) (now : Nat) (s : Sim) :
    (updateStateMachine R now s).egoTrend = s.egoTrend := by
  unfold updateStateMachine
  cases s.currentMode <;> dsimp only <;> (repeat' split) <;> rfl

theorem frame_usm_cool (R : RStream) (now : Nat) (s : Sim) :
    (updateStateMachine R now s).coolantTemp = s.coolantTemp := by
  unfold updateStateMachine
  cases s.currentMode <;> dsimp only <;> (repeat' split) <;> rfl

theorem frame_usm_rpm (R : RStream) (now : Nat) (s : Sim) :
    (updateStateMachine R now s).currentRPM = s.currentRPM := by
  unfold updateStateMachine
  cases s.currentMode <;> dsimp only <;> (repeat' split) <;> rfl

theorem frame_usm_getPW (R : RStream) (now : Nat) (s : Sim) :
    getPulseWidth (updateStateMachine R now s).status = getPulseWidth s.status := by
  unfold updateStateMachine
  cases s.currentMode <;> dsimp only <;> (repeat' split) <;> rfl

theorem frame_usm_pwm (R : RStream) (now : Nat) (s : Sim) :
    (updateStateMachine R now s).pulseWidth = s.pulseWidth := by
  unfold updateStateMachine
  cases s.currentMode <;> dsimp only <;> (repeat' split) <;> rfl

theorem frame_usm_getRPMb (R : RStream) (now : Nat) (s : Sim) :
    getRPM (updateStateMachine R now s).status = getRPM s.status := by
  unfold updateStateMachine
  cases s.currentMode <;> dsimp only <;> (repeat' split) <;> rfl

theorem frame_rpmStage_ego (R : RStream) (s : Sim) :
    (simulateRPM R s).status.egocorrection = s.status.egocorrection := rfl

theorem frame_rpmStage_trend (R : RStream) (s : Sim) :
    (simulateRPM R s).egoTrend = s.egoTrend := rfl

theorem frame_rpmStage_cool (R : RStream) (s : Sim) :
    (simulateRPM R s).coolantTemp = s.coolantTemp := rfl

theorem frame_rpmStage_mode (R : RStream) (s : Sim) :
    (simulateRPM R s).currentMode = s.currentMode := rfl

theorem frame_rpmStage_getPW (R : RStream) (s : Sim) :
    getPulseWidth (simulateRPM R s).status = getPulseWidth s.status := rfl

theorem frame_rpmStage_pwm (R : RStream) (s : Sim) :
    (simulateRPM R s).pulseWidth = s.pulseWidth := rfl

theorem frame_thermal_ego (s : Sim) :
    (simulateThermal s).status.egocorrection = s.status.egocorrection := rfl

theorem frame_thermal_trend (s : Sim) :
    (simulateThermal s).egoTrend = s.egoTrend := rfl

theorem frame_thermal_mode (s : Sim) :
    (simulateThermal s).currentMode = s.currentMode := rfl

theorem frame_thermal_rpm (s : Sim) :
    (simulateThermal s).currentRPM = s.currentRPM := rfl

theorem frame_thermal_getPW (s : Sim) :
    getPulseWidth (simulateThermal s).status = getPulseWidth s.status := rfl

theorem frame_thermal_pwm (s : Sim) :
    (simulateThermal s).pulseWidth = s.pulseWidth := rfl

theorem frame_thermal_getRPMb (s : Sim) :
    getRPM (simulateThermal s).status = getRPM s.status := rfl

theorem frame_throttle_ego (R : RStream) (s : Sim) :
    (simulateThrottle R s).status.egocorrection = s.status.egocorrection := rfl

theorem frame_throttle_trend (R : RStream) (s : Sim) :
    (simulateThrottle R s).egoTrend = s.egoTrend := rfl

theorem frame_throttle_cool (R : RStream) (s : Sim) :
    (simulateThrottle R s).coolantTemp = s.coolantTemp := rfl

theorem frame_throttle_mode (R : RStream) (s : Sim) :
    (simulateThrottle R s).currentMode = s.currentMode := rfl

theorem frame_throttle_rpm (R : RStream) (s : Sim) :
    (simulateThrottle R s).currentRPM = s.currentRPM := rfl

theorem frame_throttle_getPW (R : RStream) (s : Sim) :
    getPulseWidth (simulateThrottle R s).status = getPulseWidth s.status := rfl

theorem frame_throttle_pwm (R : RStream) (s : Sim) :
    (simulateThrottle R s).pulseWidth = s.pulseWidth := rfl

theorem frame_throttle_getRPMb (R : RStream) (s : Sim) :
    getRPM (simulateThrottle R s).status = getRPM s.status := rfl

theorem frame_mapStage_ego (R : RStream) (s : Sim) :
    (simulateMAP R s).status.egocorrection = s.status.egocorrection := rfl

theorem frame_mapStage_trend (R : RStream) (s : Sim) :
    (simulateMAP R s).egoTrend = s.egoTrend := rfl

theorem frame_mapStage_cool (R : RStream) (s : Sim) :
    (simulateMAP R s).coolantTemp = s.coolantTemp := rfl

theorem frame_mapStage_mode (R : RStream) (s : Sim) :
    (simulateMAP R s).currentMode = s.currentMode := rfl

theorem frame_mapStage_rpm (R : RStream) (s : Sim) :
    (simulateMAP R s).currentRPM = s.currentRPM := rfl

theorem frame_mapStage_getPW (R : RStream) (s : Sim) :
    getPulseWidth (simulateMAP R s).status = getPulseWidth s.status := rfl

theorem frame_mapStage_pwm (R : RStream) (s : Sim) :
    (simulateMAP R s).pulseWidth = s.pulseWidth := rfl

theorem frame_mapStage_getRPMb (R : RStream) (s : Sim) :
    getRPM (simulateMAP R s).status = getRPM s.status := rfl

theorem frame_fuel_ego (s : Sim) :
    (simulateFuel s).status.egocorrection = s.status.egocorrection := rfl

theorem frame_fuel_trend (s : Sim) :
    (simulateFuel s).egoTrend = s.egoTrend := rfl

theorem frame_fuel_cool (s : Sim) :
    (simulateFuel s).coolantTemp = s.coolantTemp := rfl

theorem frame_fuel_mode (s : Sim) :
    (simulateFuel s).currentMode = s.currentMode := rfl

theorem frame_fuel_rpm (s : Sim) :
    (simulateFuel s).currentRPM = s.currentRPM := rfl

theorem frame_fuel_getRPMb (s : Sim) :
    getRPM (simulateFuel s).status = getRPM s.status := rfl

theorem frame_ign_ego (s : Sim) :
    (simulateIgnition s).status.egocorrection = s.status.egocorrection := rfl

theorem frame_ign_trend (s : Sim) :
    (simulateIgnition s).egoTrend = s.egoTrend := rfl

theorem frame_ign_cool (s : Sim) :
    (simulateIgnition s).coolantTemp = s.coolantTemp := rfl

theorem frame_ign_mode (s : Sim) :
    (simulateIgnition s).currentMode = s.currentMode := rfl

theorem frame_ign_rpm (s : Sim) :
    (simulateIgnition s).currentRPM = s.currentRPM := rfl

theorem frame_ign_getPW (s : Sim) :
    getPulseWidth (simulateIgnition s).status = getPulseWidth s.status := rfl

theorem frame_ign_pwm (s : Sim) :
    (simulateIgnition s).pulseWidth = s.pulseWidth := rfl

theorem frame_ign_getRPMb (s : Sim) :
    getRPM (simulateIgnition s).status = getRPM s.status := rfl

theorem frame_afr_ego (R : RStream) (s : Sim) :
    (simulateAFR R s).status.egocorrection = s.status.egocorrection := rfl

theorem frame_afr_trend (R : RStream) (s : Sim) :
    (simulateAFR R s).egoTrend = s.egoTrend := rfl

theorem frame_afr_cool (R : RStream) (s : Sim) :
    (simulateAFR R s).coolantTemp = s.coolantTemp := rfl

theorem frame_afr_mode (R : RStream) (s : Sim) :
    (simulateAFR R s).currentMode = s.currentMode := rfl

theorem frame_afr_rpm (R : RStream) (s : Sim) :
    (simulateAFR R s).currentRPM = s.currentRPM := rfl

theorem frame_afr_getPW (R : RStream) (s : Sim) :
    getPulseWidth (simulateAFR R s).status = getPulseWidth s.status := rfl

theorem frame_afr_pwm (R : RStream) (s : Sim) :
    (simulateAFR R s).pulseWidth = s.pulseWidth := rfl

theorem frame_afr_getRPMb (R : RStream) (s : Sim) :
    getRPM (simulateAFR R s).status = getRPM s.status := rfl

theorem frame_corr_cool (R : RStream) (s : Sim) :
    (simulateCorrections R s).coolantTemp = s.coolantTemp := rfl

theorem frame_corr_mode (R : RStream) (s : Sim) :
    (simulateCorrections R s).currentMode = s.currentMode := rfl

theorem frame_corr_rpm (R : RStream) (s : Sim) :
    (simulateCorrections R s).currentRPM = s.currentRPM := rfl

theorem frame_corr_getPW (R : RStream) (s : Sim) :
    getPulseWidth (simulateCorrections R s).status = getPulseWidth s.status := rfl

theorem frame_corr_pwm (R : RStream) (s : Sim) :
    (simulateCorrections R s).pulseWidth = s.pulseWidth := rfl

theorem frame_corr_getRPMb (R : RStream) (s : Sim) :
    getRPM (simulateCorrections R s).status = getRPM s.status := rfl

theorem frame_sens_ego (s : Sim) :
    (simulateSensors s).status.egocorrection = s.status.egocorrection := rfl

theorem frame_sens_trend (s : Sim) :
    (simulateSensors s).egoTrend = s.egoTrend := rfl

theorem frame_sens_cool (s : Sim) :
    (simulateSensors s).coolantTemp = s.coolantTemp := rfl

theorem frame_sens_mode (s : Sim) :
    (simulateSensors s).currentMode = s.currentMode := rfl

theorem frame_sens_rpm (s : Sim) :
    (simulateSensors s).currentRPM = s.currentRPM := rfl

theorem frame_sens_getPW (s : Sim) :
    getPulseWidth (simulateSensors s).status = getPulseWidth s.status := rfl

theorem frame_sens_pwm (s : Sim) :
    (simulateSensors s).pulseWidth = s.pulseWidth := rfl

theorem frame_sens_getRPMb (s : Sim) :
    getRPM (simulateSensors s).status = getRPM s.status := rfl

theorem frame_volt_ego (R : RStream) (s : Sim) :
    (simulateVoltage R s).status.egocorrection = s.status.egocorrection := rfl

theorem frame_volt_trend (R : RStream) (s : Sim) :
    (simulateVoltage R s).egoTrend = s.egoTrend := rfl

theorem frame_volt_cool (R : RStream) (s : Sim) :
    (simulateVoltage R s).coolantTemp = s.coolantTemp := rfl

theorem frame_volt_mode (R : RStream) (s : Sim) :
    (simulateVoltage R s).currentMode = s.currentMode := rfl

theorem frame_volt_rpm (R : RStream) (s : Sim) :
    (simulateVoltage R s).currentRPM = s.currentRPM := rfl

theorem frame_volt_getPW (R : RStream) (s : Sim) :
    getPulseWidth (simulateVoltage R s).status = getPulseWidth s.status := rfl

theorem frame_volt_pwm (R : RStream) (s : Sim) :
    (simulateVoltage R s).pulseWidth = s.pulseWidth := rfl

theorem frame_volt_getRPMb (R : RStream) (s : Sim) :
    getRPM (simulateVoltage R s).status = getRPM s.status := rfl

theorem frame_can_ego (s : Sim) :
    (simulateCANData s).status.egocorrection = s.status.egocorrection := rfl

theorem frame_can_trend (s : Sim) :
    (simulateCANData s).egoTrend = s.egoTrend := rfl

theorem frame_can_cool (s : Sim) :
    (simulateCANData s).coolantTemp = s.coolantTemp := rfl

theorem frame_can_mode (s : Sim) :
    (simulateCANData s).currentMode = s.currentMode := rfl

theorem frame_can_rpm (s : Sim) :
    (simulateCANData s).currentRPM = s.currentRPM := rfl

theorem frame_can_getPW (s : Sim) :
    getPulseWidth (simulateCANData s).status = getPulseWidth s.status := rfl

theorem frame_can_pwm (s : Sim) :
    (simulateCANData s).pulseWidth = s.pulseWidth := rfl

theorem frame_can_getRPMb (s : Sim) :
    getRPM (simulateCANData s).status = getRPM s.status := rfl

theorem frame_tickFinish_ego (R : RStream) (s : Sim) :
    (tickFinish R s).status.egocorrection = s.status.egocorrection := by
  unfold tickFinish
  dsimp only
  split <;> rfl

theorem frame_tickFinish_trend (R : RStream) (s : Sim) :
    (tickFinish R s).egoTrend = s.egoTrend := by
  unfold tickFinish
  dsimp only
  split <;> rfl

theorem frame_tickFinish_cool (R : RStream) (s : Sim) :
    (tickFinish R s).coolantTemp = s.coolantTemp := by
  unfold tickFinish
  dsimp only
  split <;> rfl

theorem frame_tickFinish_mode (R : RStream) (s : Sim) :
    (tickFinish R s).currentMode = s.currentMode := by
  unfold tickFinish
  dsimp only
  split <;> rfl

theorem frame_tickFinish_rpm (R : RStream) (s : Sim) :
    (tickFinish R s).currentRPM = s.currentRPM := by
  unfold tickFinish
  dsimp only
  split <;> rfl

theorem frame_tickFinish_getPW (R : RStream) (s : Sim) :
    getPulseWidth (tickFinish R s).status = getPulseWidth s.status := by
  unfold tickFinish
  dsimp only
  split <;> rfl

theorem frame_tickFinish_pwm (R : RStream) (s : Sim) :
    (tickFinish R s).pulseWidth = s.pulseWidth := by
  unfold tickFinish
  dsimp only
  split <;> rfl

theorem frame_tickFinish_getRPMb (R : RStream) (s : Sim) :
    getRPM (tickFinish R s).status = getRPM s.status := by
  unfold tickFinish
  dsimp only
  split <;> rfl

/-! ## Characterization lemmas for the bounded stages -/

theorem randIn_bounds (R : RStream) (p : Nat) (lo hi : Int) (h : lo < hi) :
    lo ≤ randIn R p lo hi ∧ randIn R p lo hi < hi := by
  unfold randIn
  have h1 := Int.emod_nonneg (R p : Int) (show (hi - lo) ≠ 0 by omega)
  have h2 := Int.emod_lt_of_pos (R p : Int) (show (0 : Int) < hi - lo by omega)
  omega

theorem crpw_bounds (rpm map ve : Nat) :
    PW_MIN ≤ calculateRequiredPulseWidth rpm map ve ∧
    calculateRequiredPulseWidth rpm map ve ≤ PW_MAX := by
  unfold calculateRequiredPulseWidth PW_MIN PW_MAX
  dsimp only
  split_ifs <;> omega

theorem wue_bounds (c : Int) :
    100 ≤ getWarmupEnrichment c ∧ getWarmupEnrichment c ≤ 140 := by
  unfold getWarmupEnrichment
  dsimp only
  split_ifs <;> omega

theorem pw_member_bounds (p w : Nat) (hp1 : 10 ≤ p) (hp2 : p ≤ 255)
    (hw1 : 100 ≤ w) (hw2 : w ≤ 140) :
    10 ≤ p * w / 100 ∧ p * w / 100 ≤ 357 := by
  constructor
  · have h1 : p * 100 ≤ p * w := Nat.mul_le_mul_left p hw1
    have h2 : p * 100 / 100 ≤ p * w / 100 := Nat.div_le_div_right h1
    omega
  · have h1 : p * w ≤ 255 * 140 := Nat.mul_le_mul hp2 hw2
    have h2 : p * w / 100 ≤ 255 * 140 / 100 := Nat.div_le_div_right h1
    omega

theorem clamp_mod_bounds (x : Nat) :
    10 ≤ (if (if x < PW_MIN then PW_MIN else x) > PW_MAX then PW_MAX
          else (if x < PW_MIN then PW_MIN else x)) % 65536 ∧
    (if (if x < PW_MIN then PW_MIN else x) > PW_MAX then PW_MAX
     else (if x < PW_MIN then PW_MIN else x)) % 65536 ≤ 255 := by
  unfold PW_MIN PW_MAX
  split_ifs <;> omega

theorem simulateFuel_spec (s : Sim) :
    PW_MIN ≤ getPulseWidth (simulateFuel s).status ∧
    getPulseWidth (simulateFuel s).status ≤ PW_MAX ∧
    PW_MIN ≤ (simulateFuel s).pulseWidth ∧
    (simulateFuel s).pulseWidth ≤ 357 ∧
    (s.status.egocorrection = 0 → getPulseWidth (simulateFuel s).status = PW_MIN) := by
  have hc := crpw_bounds s.currentRPM (getMAP s.status) (calculateVE s.currentRPM s.currentThrottle)
  have hw := wue_bounds s.coolantTemp
  have hm := pw_member_bounds _ _ hc.1 hc.2 hw.1 hw.2
  unfold simulateFuel
  dsimp only
  rw [getPulseWidth_setPulseWidth]
  refine ⟨(clamp_mod_bounds _).1, (clamp_mod_bounds _).2, hm.1, hm.2, ?_⟩
  intro h
  rw [h]
  simp
  decide

theorem getRPM_setRPMDot (st : EngineStatus) (d : Int) :
    getRPM (setRPMDot st d) = getRPM st := rfl

theorem simulateRPM_spec (R : RStream) (s : Sim) :
    ((s.currentMode ≠ EngineMode.IDLE ∧ s.currentMode ≠ EngineMode.WARMUP_IDLE) →
        (simulateRPM R s).currentRPM ≤ RPM_MAX) ∧
    ((simulateRPM R s).currentRPM ≤ RPM_MAX + 9 ∨ 65526 ≤ (simulateRPM R s).currentRPM) ∧
    getRPM (simulateRPM R s).status = (simulateRPM R s).currentRPM := by
  have hj := randIn_bounds R s.rngPos (-10) 10 (by norm_num)
  unfold simulateRPM
  dsimp only
  rw [getRPM_setRPMDot, getRPM_setRPM]
  unfold RPM_MAX RPM_MIN toI16 wrap16i
  by_cases hm : s.currentMode = EngineMode.IDLE ∨ s.currentMode = EngineMode.WARMUP_IDLE
  · rw [if_pos hm]
    refine ⟨fun h => absurd hm (not_or.mpr ⟨h.1, h.2⟩), ?_, ?_⟩ <;>
      split_ifs <;> omega
  · rw [if_neg hm]
    refine ⟨fun h => ?_, ?_, ?_⟩ <;> split_ifs <;> omega

theorem thermal_coolant_eq (s : Sim) :
    (simulateThermal s).coolantTemp
      = interpolate s.coolantTemp (thermalTargetCoolant s.currentMode) 5 := rfl

theorem thermalTargetCoolant_le (m : EngineMode) : thermalTargetCoolant m ≤ 950 := by
  unfold thermalTargetCoolant TEMP_ENGINE_HOT TEMP_ENGINE_WARM
  split_ifs <;> norm_num

theorem interpolate_cold_step_le (c t : Int) (hc : c ≤ 460) (ht : t ≤ 950) :
    interpolate c t 5 ≤ 500 := by
  unfold interpolate cdiv
  dsimp only
  rcases le_or_lt (t - c) 0 with hd | hd
  · have h2 : 0 ≤ ((c - t) * 5).tdiv 100 := Int.tdiv_nonneg (by omega) (by norm_num)
    have h3 : ((t - c) * 5).tdiv 100 = -(((c - t) * 5).tdiv 100) := by
      rw [show (t - c) * 5 = -((c - t) * 5) by ring, Int.neg_tdiv]
    split_ifs <;> omega
  · have h4 : ((t - c) * 5).tdiv 100 = ((t - c) * 5) / 100 :=
      Int.tdiv_eq_ediv (by omega) (by norm_num)
    rw [h4]
    split_ifs <;> omega

theorem corrections_ego_spec (R : RStream) (s : Sim)
    (h : EgoBand s ∨ (s.egoTrend = 1 ∧ s.status.egocorrection = 0 ∧ ¬ s.coolantTemp > 500)) :
    EgoBand (simulateCorrections R s) ∧
    (s.coolantTemp > 500 ∧ s.currentMode ≠ EngineMode.WOT →
      89 ≤ (simulateCorrections R s).status.egocorrection ∧
      (simulateCorrections R s).status.egocorrection ≤ 111) ∧
    (¬ (s.coolantTemp > 500 ∧ s.currentMode ≠ EngineMode.WOT) →
      (simulateCorrections R s).status.egocorrection = 100) := by
  unfold simulateCorrections EgoBand at *
  dsimp only
  by_cases hc : s.coolantTemp > 500 ∧ s.currentMode ≠ EngineMode.WOT
  · simp only [if_pos hc]
    rcases h with (⟨ht, h1, h2⟩ | ⟨ht, h1, h2⟩) | ⟨ht, h1, h2⟩
    · rw [ht]
      unfold wrap8i
      refine ⟨?_, fun _ => ?_, fun hn => absurd hc hn⟩ <;>
        first | (split_ifs <;> omega) | omega
    · rw [ht]
      unfold wrap8i
      refine ⟨?_, fun _ => ?_, fun hn => absurd hc hn⟩ <;>
        first | (split_ifs <;> omega) | omega
    · exact absurd hc.1 h2
  · simp only [if_neg hc]
    refine ⟨?_, fun hp => absurd hp hc, fun _ => by trivial⟩
    rcases h with (⟨ht, h1, h2⟩ | ⟨ht, h1, h2⟩) | ⟨ht, h1, h2⟩
    · left; exact ⟨ht, by omega, by omega⟩
    · right; exact ⟨ht, by omega, by omega⟩
    · left; exact ⟨ht, by omega, by omega⟩

theorem frame_tm_ego (R : RStream) (now : Nat) (m : EngineMode) (s : Sim) :
    (transitionToMode R now m s).status.egocorrection = s.status.egocorrection := rfl

theorem frame_tm_trend (R : RStream) (now : Nat) (m : EngineMode) (s : Sim) :
    (transitionToMode R now m s).egoTrend = s.egoTrend := rfl

theorem frame_tm_cool (R : RStream) (now : Nat) (m : EngineMode) (s : Sim) :
    (transitionToMode R now m s).coolantTemp = s.coolantTemp := rfl

/-- One accepted tick takes any state satisfying the EGO invariant into the
closed-loop band, and the correction byte afterwards is inside [89, 111]
exactly when the closed-loop branch condition (evaluated on the post-tick
coolant and mode, which the branch itself reads mid-tick) held, and is
exactly 100 otherwise. -/
theorem tickCore_ego_spec (R : RStream) (now : Nat) (s : Sim) (h : EgoInv s) :
    EgoBand (tickCore R now s) ∧
    ((tickCore R now s).coolantTemp > 500 ∧ (tickCore R now s).currentMode ≠ EngineMode.WOT →
      89 ≤ (tickCore R now s).status.egocorrection ∧
      (tickCore R now s).status.egocorrection ≤ 111) ∧
    (¬ ((tickCore R now s).coolantTemp > 500 ∧ (tickCore R now s).currentMode ≠ EngineMode.WOT) →
      (tickCore R now s).status.egocorrection = 100) := by
  unfold tickCore
  have hX : EgoBand (simulateAFR R (simulateIgnition (simulateFuel (simulateMAP R
        (simulateThrottle R (simulateThermal (simulateRPM R
          (updateStateMachine R now (tickCount now s))))))))) ∨
      ((simulateAFR R (simulateIgnition (simulateFuel (simulateMAP R
        (simulateThrottle R (simulateThermal (simulateRPM R
          (updateStateMachine R now (tickCount now s))))))))).egoTrend = 1 ∧
       (simulateAFR R (simulateIgnition (simulateFuel (simulateMAP R
        (simulateThrottle R (simulateThermal (simulateRPM R
          (updateStateMachine R now (tickCount now s))))))))).status.egocorrection = 0 ∧
       ¬ (simulateAFR R (simulateIgnition (simulateFuel (simulateMAP R
        (simulateThrottle R (simulateThermal (simulateRPM R
          (updateStateMachine R now (tickCount now s))))))))).coolantTemp > 500) := by
    rcases h with hb | ⟨ht, he, hcool⟩
    · left
      unfold EgoBand at hb ⊢
      simp only [frame_afr_ego, frame_afr_trend, frame_ign_ego, frame_ign_trend,
        frame_fuel_ego, frame_fuel_trend, frame_mapStage_ego, frame_mapStage_trend,
        frame_throttle_ego, frame_throttle_trend, frame_thermal_ego, frame_thermal_trend,
        frame_rpmStage_ego, frame_rpmStage_trend, frame_usm_ego, frame_usm_trend,
        frame_tickCount_ego, frame_tickCount_trend]
      exact hb
    · right
      refine ⟨?_, ?_, ?_⟩
      · simp only [frame_afr_trend, frame_ign_trend, frame_fuel_trend, frame_mapStage_trend,
          frame_throttle_trend, frame_thermal_trend, frame_rpmStage_trend, frame_usm_trend,
          frame_tickCount_trend]
        exact ht
      · simp only [frame_afr_ego, frame_ign_ego, frame_fuel_ego, frame_mapStage_ego,
          frame_throttle_ego, frame_thermal_ego, frame_rpmStage_ego, frame_usm_ego,
          frame_tickCount_ego]
        exact he
      · simp only [frame_afr_cool, frame_ign_cool, frame_fuel_cool, frame_mapStage_cool,
          frame_throttle_cool, thermal_coolant_eq, frame_rpmStage_cool, frame_usm_cool,
          frame_tickCount_cool]
        have hle := interpolate_cold_step_le s.coolantTemp
          (thermalTargetCoolant (simulateRPM R (updateStateMachine R now (tickCount now s))).currentMode)
          hcool (thermalTargetCoolant_le _)
        omega
  have hspec := corrections_ego_spec R _ hX
  unfold EgoBand at hspec ⊢
  simp only [frame_tickFinish_ego, frame_can_ego, frame_volt_ego, frame_sens_ego,
    frame_tickFinish_trend, frame_can_trend, frame_volt_trend, frame_sens_trend,
    frame_tickFinish_cool, frame_can_cool, frame_volt_cool, frame_sens_cool, frame_corr_cool,
    frame_tickFinish_mode, frame_can_mode, frame_volt_mode, frame_sens_mode, frame_corr_mode]
  exact hspec

/-- Every reachable state satisfies the EGO invariant. -/
theorem egoInv_reachable (s : Sim) (h : Reachable s) : EgoInv s := by
  induction h with
  | init t =>
      right
      exact ⟨rfl, rfl, show (200 : Int) ≤ 460 by decide⟩
  | step R now hr ih =>
      unfold update
      split
      · exact ih
      · exact Or.inl (tickCore_ego_spec R _ _ ih).1
  | force R now m hr ih =>
      unfold EgoInv EgoBand at ih ⊢
      simpa only [setMode, frame_tm_ego, frame_tm_trend, frame_tm_cool] using ih

/-! ## Claim C7 -/

set_option maxRecDepth 100000 in
/-- Claim C7 counterexample: a concrete reachable run (24 accepted ticks
from `initialize()` under the all-zero random stream) where the closed-loop
branch is active (coolant above 50.0 °C, mode Startup ≠ WOT) and the EGO
correction after the tick is 111, outside the claimed [90, 110]. -/
theorem ego_band_cex :
    (iterTicks zeroR 24 (initEngine 0 mkSim)).status.egocorrection = 111 ∧
    (iterTicks zeroR 24 (initEngine 0 mkSim)).coolantTemp > 500 ∧
    (iterTicks zeroR 24 (initEngine 0 mkSim)).currentMode ≠ EngineMode.WOT ∧
    ¬ (111 ≤ 110) :=
  ⟨by decide, by decide, by decide, by decide⟩

/-- Claim C7 (amended): after every accepted tick from a reachable state,
the EGO correction lies within [89, 111] when the closed-loop condition
(coolant above 50.0 °C and mode not WOT, as the branch reads them) holds,
and equals exactly 100 otherwise. The walk steps before its turn-around
test, so the attained band is [89, 111], not [90, 110]. -/
theorem ego_correction_bands (R : RStream) (now : Nat) (s : Sim)
    (hr : Reachable s) (hacc : ¬ u32sub now s.lastUpdateTime < UPDATE_INTERVAL_MS) :
    ((update R now s).2.coolantTemp > 500 ∧ (update R now s).2.currentMode ≠ EngineMode.WOT →
      89 ≤ (update R now s).2.status.egocorrection ∧
      (update R now s).2.status.egocorrection ≤ 111) ∧
    (¬ ((update R now s).2.coolantTemp > 500 ∧ (update R now s).2.currentMode ≠ EngineMode.WOT) →
      (update R now s).2.status.egocorrection = 100) := by
  have h := egoInv_reachable s hr
  unfold update
  rw [if_neg hacc]
  exact (tickCore_ego_spec R now s h).2

/-- Witness for C7: the first tick after initialization is open loop
(coolant 23.0 °C), so the correction is pinned to 100. -/
theorem ego_correction_bands_w :
    (update zeroR 50 (initEngine 0 mkSim)).2.status.egocorrection = 100 :=
  (ego_correction_bands zeroR 50 (initEngine 0 mkSim) (Reachable.init 0) (by decide)).2
    (by decide)

/-! ## Claim C3 -/

/-- Claim C3 counterexample: on the very first accepted tick from
`initialize()` (all-zero random stream, so the MAP noise draw is −2 and
wraps the unsigned base pressure up to the atmospheric clamp), the
simulation state's pulse-width variable ends at 306 — the warm-up
enrichment is applied to it after the [PW_MIN, PW_MAX] clamp of the
required pulse width, so the member exceeds PW_MAX = 255. -/
theorem pw_state_var_cex :
    (update zeroR 50 (initEngine 0 mkSim)).2.pulseWidth = 306 ∧
    ¬ ((update zeroR 50 (initEngine 0 mkSim)).2.pulseWidth ≤ PW_MAX) :=
  ⟨by decide, by decide⟩

/-- Claim C3 (amended): after every accepted tick the pulse-width field of
the Wire Record is within [PW_MIN, PW_MAX]; the simulation state's
pulse-width variable is only within [PW_MIN, 357] (PW_MAX scaled by the
maximal 140 % warm-up enrichment), because the enrichment is applied after
the clamp. -/
theorem pw_field_bounds (R : RStream) (now : Nat) (s : Sim)
    (hacc : ¬ u32sub now s.lastUpdateTime < UPDATE_INTERVAL_MS) :
    PW_MIN ≤ getPulseWidth (update R now s).2.status ∧
    getPulseWidth (update R now s).2.status ≤ PW_MAX ∧
    PW_MIN ≤ (update R now s).2.pulseWidth ∧
    (update R now s).2.pulseWidth ≤ 357 := by
  unfold update
  rw [if_neg hacc]
  dsimp only
  unfold tickCore
  simp only [frame_tickFinish_getPW, frame_can_getPW, frame_volt_getPW, frame_sens_getPW,
    frame_corr_getPW, frame_afr_getPW, frame_ign_getPW,
    frame_tickFinish_pwm, frame_can_pwm, frame_volt_pwm, frame_sens_pwm,
    frame_corr_pwm, frame_afr_pwm, frame_ign_pwm]
  have h := simulateFuel_spec (simulateMAP R (simulateThrottle R (simulateThermal
    (simulateRPM R (updateStateMachine R now (tickCount now s))))))
  exact ⟨h.1, h.2.1, h.2.2.1, h.2.2.2.1⟩

/-- Witness for C3 at the first tick after initialization. -/
theorem pw_field_bounds_w :
    PW_MIN ≤ getPulseWidth (update zeroR 50 (initEngine 0 mkSim)).2.status :=
  (pw_field_bounds zeroR 50 (initEngine 0 mkSim) (by decide)).1

/-! ## Claim C4 -/

/-- Claim C4 counterexample: force Idle right after initialization (RPM 0)
and tick once with jitter draw −10: the idle jitter is added after the
[0, RPM_MAX] clamps and the unsigned 16-bit RPM wraps to 65528, far above
RPM_MAX — in the state variable and in the Wire Record RPM field alike. -/
theorem rpm_wrap_cex :
    (update zeroR 1050 (setMode zeroR 1000 EngineMode.IDLE (initEngine 1000 mkSim))).2.currentRPM
        = 65528 ∧
    getRPM (update zeroR 1050 (setMode zeroR 1000 EngineMode.IDLE
        (initEngine 1000 mkSim))).2.status = 65528 ∧
    ¬ ((65528 : Nat) ≤ RPM_MAX) :=
  ⟨by decide, by decide, by decide⟩

/-- Claim C4 (amended): after every accepted tick the RPM (state variable
and Wire Record field agree) is within [0, RPM_MAX] whenever the post-tick
mode is not an idle mode; in Idle/WarmupIdle the ±10 jitter applied after
the clamps can push it to at most RPM_MAX + 9, or wrap below zero to
65526…65535 in unsigned 16-bit arithmetic. -/
theorem rpm_bounds_after_tick (R : RStream) (now : Nat) (s : Sim)
    (hacc : ¬ u32sub now s.lastUpdateTime < UPDATE_INTERVAL_MS) :
    ((update R now s).2.currentMode ≠ EngineMode.IDLE →
     (update R now s).2.currentMode ≠ EngineMode.WARMUP_IDLE →
     (update R now s).2.currentRPM ≤ RPM_MAX) ∧
    ((update R now s).2.currentRPM ≤ RPM_MAX + 9 ∨ 65526 ≤ (update R now s).2.currentRPM) ∧
    getRPM (update R now s).2.status = (update R now s).2.currentRPM := by
  unfold update
  rw [if_neg hacc]
  dsimp only
  unfold tickCore
  simp only [frame_tickFinish_mode, frame_can_mode, frame_volt_mode, frame_sens_mode,
    frame_corr_mode, frame_afr_mode, frame_ign_mode, frame_fuel_mode,
    frame_mapStage_mode, frame_throttle_mode, frame_thermal_mode, frame_rpmStage_mode,
    frame_tickFinish_rpm, frame_can_rpm, frame_volt_rpm, frame_sens_rpm,
    frame_corr_rpm, frame_afr_rpm, frame_ign_rpm, frame_fuel_rpm,
    frame_mapStage_rpm, frame_throttle_rpm, frame_thermal_rpm,
    frame_tickFinish_getRPMb, frame_can_getRPMb, frame_volt_getRPMb, frame_sens_getRPMb,
    frame_corr_getRPMb, frame_afr_getRPMb, frame_ign_getRPMb, frame_fuel_getRPMb,
    frame_mapStage_getRPMb, frame_throttle_getRPMb, frame_thermal_getRPMb]
  have h := simulateRPM_spec R (updateStateMachine R now (tickCount now s))
  exact ⟨fun h1 h2 => h.1 ⟨h1, h2⟩, h.2.1, h.2.2⟩

/-- Witness for C4 at the first tick after initialization (mode Startup,
so the strict bound applies). -/
theorem rpm_bounds_after_tick_w :
    (update zeroR 50 (initEngine 0 mkSim)).2.currentRPM ≤ RPM_MAX :=
  (rpm_bounds_after_tick zeroR 50 (initEngine 0 mkSim) (by decide)).1
    (by decide) (by decide)

/-! ## Claim C10 -/

/-- Claim C10: right after `initialize()` the EGO and IAT correction bytes
are zero, the fuel stage of the first accepted tick multiplies by them
before the corrections stage rewrites them, so the corrected pulse width
collapses to zero and the clamp raises it to exactly PW_MIN (1.0 ms) in
the Wire Record. -/
theorem first_tick_pw_is_min (s0 : Sim) (t0 : Nat) (R : RStream) (now : Nat)
    (hacc : ¬ u32sub now (initEngine t0 s0).lastUpdateTime < UPDATE_INTERVAL_MS) :
    getPulseWidth (update R now (initEngine t0 s0)).2.status = PW_MIN := by
  unfold update
  rw [if_neg hacc]
  dsimp only
  unfold tickCore
  simp only [frame_tickFinish_getPW, frame_can_getPW, frame_volt_getPW, frame_sens_getPW,
    frame_corr_getPW, frame_afr_getPW, frame_ign_getPW]
  apply (simulateFuel_spec _).2.2.2.2
  simp only [frame_mapStage_ego, frame_throttle_ego, frame_thermal_ego, frame_rpmStage_ego,
    frame_usm_ego, frame_tickCount_ego]
  rfl

/-- Witness for C10 at a concrete first tick. -/
theorem first_tick_pw_is_min_w :
    getPulseWidth (update zeroR 50 (initEngine 0 mkSim)).2.status = PW_MIN :=
  first_tick_pw_is_min mkSim 0 zeroR 50 (by decide)
